import Mathlib

set_option linter.unusedVariables false

/-!
Verification of the device-integration services of the electron-intranet
repository: a shallow embedding of the TypeScript services
(CameraService, SerialService, PrinterService, USBService, ScannerService)
and proofs about their data model and operations.

JavaScript `Map` objects are modelled as association lists with
insertion-order semantics: `set` replaces the first entry with the same
key (keys are unique in a real `Map`), otherwise appends.
-/

namespace Intranet

/-- Model of JavaScript `Map.has`. -/
def mapHas {α : Type} (m : List (String × α)) (k : String) : Bool :=
  match m with
  | [] => false
  | e :: rest => if e.1 = k then true else mapHas rest k

/-- Model of JavaScript `Map.get` (first entry with the key). -/
def mapFind {α : Type} (m : List (String × α)) (k : String) : Option α :=
  match m with
  | [] => none
  | e :: rest => if e.1 = k then some e.2 else mapFind rest k

/-- Model of JavaScript `Map.set`: replace in place, else append. -/
def mapSet {α : Type} (m : List (String × α)) (k : String) (v : α) :
    List (String × α) :=
  match m with
  | [] => [(k, v)]
  | e :: rest => if e.1 = k then (k, v) :: rest else e :: mapSet rest k v

/-- Helper modelling the JavaScript `x || undefined` idiom on optional strings
(an empty string is falsy and collapses to `undefined`). -/
def jsOrUndef (o : Option String) : Option String :=
  match o with
  | some "" => none
  | x => x

end Intranet

namespace Intranet

/-! Base64 encoding (`Buffer.toString('base64')`) over byte lists. -/

def base64Table : List Char :=
  "ABCDEFGHIJKLMNOPQRSTUVWXYZabcdefghijklmnopqrstuvwxyz0123456789+/".data

def b64char (n : Nat) : Char := base64Table.getD n 'A'

def base64Chunks : List Nat → List Char
  | [] => []
  | [a] => [b64char (a / 4), b64char (a % 4 * 16), '=', '=']
  | [a, b] => [b64char (a / 4), b64char (a % 4 * 16 + b / 16), b64char (b % 16 * 4), '=']
  | a :: b :: c :: rest =>
      b64char (a / 4) :: b64char (a % 4 * 16 + b / 16) ::
        b64char (b % 16 * 4 + c / 64) :: b64char (c % 64) :: base64Chunks rest

def base64 (bytes : List Nat) : String := ⟨base64Chunks bytes⟩

/-- Model of Node `path.extname`. -/
def extname (p : String) : String :=
  match p.data.reverse.takeWhile (fun c => !(c == '/') && !(c == '\\')) with
  | revBase =>
    match revBase.takeWhile (fun c => !(c == '.')) with
    | beforeDot =>
      if beforeDot.length = revBase.length then ""
      else if beforeDot.length + 1 = revBase.length then ""
      else ⟨'.' :: beforeDot.reverse⟩

/-! Camera service (src/services/CameraService.ts). -/

inductive CamType
  | webcam
  | usb
  | ip
deriving DecidableEq

inductive CamStatus
  | available
  | busy
  | error
deriving DecidableEq

structure CameraInfo where
  id : String
  name : String
  type : CamType
  status : CamStatus
  resolution : List String := []
deriving DecidableEq

/-- A raw Win32_PnPEntity row whose name matched camera/webcam/imaging
(input of detectWebcams). -/
structure PnPImagingDevice where
  Name : String := ""
  DeviceID : String := ""
  Status : String := ""
deriving DecidableEq

/-- A raw Win32_USBHub row whose name matched camera/video/imaging
(input of detectUSBCameras). -/
structure USBHubCamera where
  Name : String := ""
  DeviceID : String := ""
deriving DecidableEq

abbrev CamRegistry := List (String × CameraInfo)

namespace CameraService

/-- detectWebcams: forEach with positional index; devices with a falsy Name
are skipped but still consume their index. -/
def detectWebcams (cams : CamRegistry) (raw : List PnPImagingDevice) : CamRegistry :=
  (raw.foldl
    (fun st d =>
      (if d.Name = "" then st.1
       else
         mapSet st.1 (toString st.2)
           { id := toString st.2, name := d.Name, type := CamType.webcam,
             status := if d.Status = "OK" then CamStatus.available else CamStatus.error,
             resolution := ["640x480", "1280x720", "1920x1080"] },
       st.2 + 1))
    (cams, 0)).1

/-- detectUSBCameras: inserts USB camera rows whose id is not yet present. -/
def detectUSBCameras (cams : CamRegistry) (raw : List USBHubCamera) : CamRegistry :=
  raw.foldl
    (fun reg d =>
      if d.Name ≠ "" ∧ mapHas reg d.DeviceID = false then
        mapSet reg d.DeviceID
          { id := d.DeviceID, name := d.Name, type := CamType.usb,
            status := CamStatus.available, resolution := ["640x480", "1280x720"] }
      else reg)
    cams

/-- The fallback entry inserted when discovery finds nothing. -/
def defaultCamera : CameraInfo :=
  { id := "0", name := "Câmera Padrão", type := CamType.webcam,
    status := CamStatus.available, resolution := ["640x480", "1280x720"] }

/-- detectCameras: clear the registry, run both detection strategies, then
insert the fallback default camera when the registry is still empty. -/
def detectCameras (webcams : List PnPImagingDevice) (usbCams : List USBHubCamera) :
    CamRegistry :=
  if (detectUSBCameras (detectWebcams [] webcams) usbCams).length = 0 then
    mapSet (detectUSBCameras (detectWebcams [] webcams) usbCams) "0" defaultCamera
  else
    detectUSBCameras (detectWebcams [] webcams) usbCams

/-- getAvailableDevices re-runs detection and returns all registry values.
The body of the TypeScript method never reads `this.isInitialized`; the flag
is threaded here as an explicit argument to make that checkable. -/
def getAvailableDevices (isInit : Bool) (webcams : List PnPImagingDevice)
    (usbCams : List USBHubCamera) : List CameraInfo :=
  (detectCameras webcams usbCams).map Prod.snd

def getCameras (isInit : Bool) (webcams : List PnPImagingDevice)
    (usbCams : List USBHubCamera) : List CameraInfo :=
  getAvailableDevices isInit webcams usbCams

def isDeviceAvailable (isInit : Bool) (cams : CamRegistry) (cameraId : String) : Bool :=
  match mapFind cams cameraId with
  | some camera => decide (camera.status = CamStatus.available)
  | none => false

def getDeviceInfo (isInit : Bool) (cams : CamRegistry) (cameraId : String) :
    Option CameraInfo :=
  mapFind cams cameraId

/-- Outcome of the external capture backend (node-webcam). On success it
resolves with the location of the written file; on failure the file may or
may not have been created. -/
inductive CaptureOutcome
  | ok (path : String)
  | failed (fileCreated : Bool) (msg : String)
deriving DecidableEq

def getMimeType (extension : String) : String :=
  if extension.toLower = ".jpg" then "image/jpeg"
  else if extension.toLower = ".jpeg" then "image/jpeg"
  else if extension.toLower = ".png" then "image/png"
  else if extension.toLower = ".bmp" then "image/bmp"
  else if extension.toLower = ".gif" then "image/gif"
  else "image/jpeg"

def imageToBase64 (imagePath : String) (content : List Nat) : String :=
  "data:" ++ getMimeType (extname imagePath) ++ ";base64," ++ base64 content

/-- capturePhoto: returns the operation result together with whether the
temporary capture file still exists afterwards. `content` is the byte
content the backend wrote when it created the file. -/
def capturePhoto (cams : CamRegistry) (cameraId : String) (format : Option String)
    (saveToFile : Bool) (outcome : CaptureOutcome) (content : List Nat) :
    Except String String × Bool :=
  match mapFind cams cameraId with
  | none => (Except.error ("Câmera " ++ cameraId ++ " não encontrada"), false)
  | some camera =>
    if camera.status ≠ CamStatus.available then
      (Except.error ("Câmera " ++ cameraId ++ " não está disponível"), false)
    else
      match outcome with
      | CaptureOutcome.failed created msg =>
          (Except.error ("Erro na captura: " ++ msg), created)
      | CaptureOutcome.ok path =>
          if saveToFile then
            (Except.ok path, true)
          else
            (Except.ok (imageToBase64 path content), false)

end CameraService

/-! Serial service (SerialService, same source file). -/

inductive PortStatus
  | available
  | busy
  | error
deriving DecidableEq

structure SerialPortInfo where
  path : String
  manufacturer : Option String := Option.none
  serialNumber : Option String := Option.none
  pnpId : Option String := Option.none
  vendorId : Option String := Option.none
  productId : Option String := Option.none
  locationId : Option String := Option.none
  friendlyName : Option String := Option.none
  status : PortStatus
deriving DecidableEq

inductive Parity
  | none
  | even
  | odd
  | mark
  | space
deriving DecidableEq

structure SerialPortOptions where
  baudRate : Option Nat := Option.none
  dataBits : Option Nat := Option.none
  stopBits : Option ℚ := Option.none
  parity : Option Parity := Option.none
  rtscts : Option Bool := Option.none
  xon : Option Bool := Option.none
  xoff : Option Bool := Option.none
  xany : Option Bool := Option.none
  autoOpen : Option Bool := Option.none
deriving DecidableEq

/-- The fully-defaulted options object passed to the serialport constructor. -/
structure ResolvedSerialOptions where
  path : String
  baudRate : Nat
  dataBits : Nat
  stopBits : ℚ
  parity : Parity
  rtscts : Bool
  xon : Bool
  xoff : Bool
  xany : Bool
  autoOpen : Bool
deriving DecidableEq

/-- JavaScript `n || d` on an optional number (0 is falsy). -/
def jsOrNat (o : Option Nat) (d : Nat) : Nat :=
  match o with
  | some n => if n = 0 then d else n
  | Option.none => d

/-- JavaScript `q || d` on an optional rational (0 is falsy). -/
def jsOrRat (o : Option ℚ) (d : ℚ) : ℚ :=
  match o with
  | some q => if q = 0 then d else q
  | Option.none => d

inductive SerialEvent
  | portOpened (portPath : String) (opts : ResolvedSerialOptions)
  | portClosed (portPath : String)
  | portError (portPath : String) (msg : String)
deriving DecidableEq

structure SerialState where
  ports : List (String × SerialPortInfo)
  openConnections : List (String × ResolvedSerialOptions)
deriving DecidableEq

namespace SerialService

def resolveSerialOptions (portPath : String) (options : SerialPortOptions) :
    ResolvedSerialOptions :=
  { path := portPath
    baudRate := jsOrNat options.baudRate 9600
    dataBits := jsOrNat options.dataBits 8
    stopBits := jsOrRat options.stopBits 1
    parity := options.parity.getD Parity.none
    rtscts := options.rtscts.getD false
    xon := options.xon.getD false
    xoff := options.xoff.getD false
    xany := options.xany.getD false
    autoOpen := !(options.autoOpen == some false) }

/-- openPort. `connOutcome` is the outcome of the external serialport
constructor (resolution or rejection of createSerialConnection). Returns
the boolean result, the state afterwards and the emitted events. -/
def openPort (st : SerialState) (portPath : String) (options : SerialPortOptions)
    (connOutcome : Except String Unit) : Bool × SerialState × List SerialEvent :=
  if mapHas st.openConnections portPath then
    (false, st,
      [SerialEvent.portError portPath ("Porta " ++ portPath ++ " já está aberta")])
  else
    match mapFind st.ports portPath with
    | Option.none =>
        (false, st,
          [SerialEvent.portError portPath ("Porta " ++ portPath ++ " não encontrada")])
    | some port =>
      if port.status ≠ PortStatus.available then
        (false, st,
          [SerialEvent.portError portPath
            ("Porta " ++ portPath ++ " não está disponível")])
      else
        match connOutcome with
        | Except.error msg => (false, st, [SerialEvent.portError portPath msg])
        | Except.ok _ =>
            (true,
              { ports := mapSet st.ports portPath { port with status := PortStatus.busy },
                openConnections :=
                  mapSet st.openConnections portPath
                    (resolveSerialOptions portPath options) },
              [SerialEvent.portOpened portPath (resolveSerialOptions portPath options)])

end SerialService

/-! Printer service (PrinterService, same source file). -/

/-- A raw row of `Get-Printer | ConvertTo-Json`. -/
structure RawPrinter where
  Name : String := ""
  PrinterStatus : Option String := Option.none
  Default : Option Bool := Option.none
  Comment : Option String := Option.none
  Description : Option String := Option.none
deriving DecidableEq

structure PrinterInfo where
  name : String
  status : String
  isDefault : Bool
  description : Option String := Option.none
deriving DecidableEq

inductive PrintType
  | text
  | html
  | pdf
deriving DecidableEq

inductive PrintBackend
  | text
  | html
  | pdf
deriving DecidableEq

namespace PrinterService

/-- JavaScript `s || d` on an optional string ("" is falsy). -/
def jsOrStr (o : Option String) (d : String) : String :=
  match o with
  | some s => if s = "" then d else s
  | Option.none => d

def parsePrinter (r : RawPrinter) : PrinterInfo :=
  { name := r.Name
    status := jsOrStr r.PrinterStatus "Unknown"
    isDefault := r.Default.getD false
    description :=
      match r.Comment with
      | some c => if c = "" then r.Description else some c
      | Option.none => r.Description }

def refreshPrinterList (raw : List RawPrinter) : List (String × PrinterInfo) :=
  raw.foldl (fun reg r => mapSet reg r.Name (parsePrinter r)) []

def getPrinters (raw : List RawPrinter) : List PrinterInfo :=
  (refreshPrinterList raw).map Prod.snd

def isDeviceAvailable (isInit : Bool) (raw : List RawPrinter)
    (printerName : String) : Bool :=
  mapHas (refreshPrinterList raw) printerName

/-- print: resolves the target printer (explicit option, else the default
from the freshly refreshed registry), checks availability, then dispatches
to the type-specific backend. Returns the boolean result, which backend (if
any) was invoked, and the error messages emitted via print-error events.
`backendOk`/`backendErr` model the outcome of the external printing
backend. -/
def print (raw : List RawPrinter) (content : String) (typ : PrintType)
    (optPrinter : Option String) (backendOk : Bool) (backendErr : String) :
    Bool × Option PrintBackend × List String :=
  match
    (if optPrinter.getD "" = "" then
      ((getPrinters raw).find? (fun p => p.isDefault)).map PrinterInfo.name
    else optPrinter) with
  | Option.none => (false, Option.none, ["Nenhuma impressora padrão encontrada"])
  | some targetPrinter =>
    if isDeviceAvailable true raw targetPrinter = false then
      (false, Option.none,
        ["Impressora " ++ targetPrinter ++ " não está disponível"])
    else
      match typ with
      | PrintType.text =>
          (backendOk, some PrintBackend.text, if backendOk then [] else [backendErr])
      | PrintType.html =>
          (backendOk, some PrintBackend.html, if backendOk then [] else [backendErr])
      | PrintType.pdf =>
          (backendOk, some PrintBackend.pdf, if backendOk then [] else [backendErr])

end PrinterService

/-! USB service (USBService). -/

inductive USBStatus
  | connected
  | disconnected
  | error
deriving DecidableEq

structure USBDeviceInfo where
  deviceId : String
  vendorId : String
  productId : String
  manufacturer : Option String := Option.none
  product : Option String := Option.none
  serialNumber : Option String := Option.none
  deviceClass : Option String := Option.none
  deviceSubclass : Option String := Option.none
  status : USBStatus
deriving DecidableEq

/-- A raw WMI row (Win32_PnPEntity) from the PowerShell USB enumeration. -/
structure WMIDevice where
  DeviceID : String := ""
  Name : Option String := Option.none
  Manufacturer : Option String := Option.none
  Status : String := ""
deriving DecidableEq

/-- A device descriptor from the native usb library enumeration. -/
structure LibDevice where
  idVendor : Nat
  idProduct : Nat
  manufacturer : Option String := Option.none
  product : Option String := Option.none
  serialNumber : Option String := Option.none
  bDeviceClass : Option Nat := Option.none
  bDeviceSubClass : Option Nat := Option.none
deriving DecidableEq

abbrev USBRegistry := List (String × USBDeviceInfo)

inductive USBEvent
  | deviceConnected (d : USBDeviceInfo)
  | deviceDisconnected (d : USBDeviceInfo)
  | devicesUpdated (ds : List USBDeviceInfo)
deriving DecidableEq

/-- Membership test on a list of strings (JavaScript `Set.has`). -/
def strMem (l : List String) (s : String) : Bool :=
  match l with
  | [] => false
  | x :: rest => if x = s then true else strMem rest s

def isHexDigit (c : Char) : Bool :=
  c.isDigit || decide (65 ≤ c.toNat ∧ c.toNat ≤ 70) ||
    decide (97 ≤ c.toNat ∧ c.toNat ≤ 102)

/-- Tries to read `VID_xxxx&PID_xxxx` (x a hex digit) at the head. -/
def vidPidAt (l : List Char) : Option (List Char × List Char) :=
  match l with
  | 'V' :: 'I' :: 'D' :: '_' :: a :: b :: c :: d ::
      '&' :: 'P' :: 'I' :: 'D' :: '_' :: e :: f :: g :: h :: _ =>
    if isHexDigit a && isHexDigit b && isHexDigit c && isHexDigit d &&
        isHexDigit e && isHexDigit f && isHexDigit g && isHexDigit h then
      some ([a, b, c, d], [e, f, g, h])
    else
      Option.none
  | _ => Option.none

/-- Model of `DeviceID.match(/VID_([0-9A-Fa-f]\x7b4\x7d)&PID_([0-9A-Fa-f]\x7b4\x7d)/)`. -/
def matchVidPid : List Char → Option (List Char × List Char)
  | [] => Option.none
  | c :: rest =>
    match vidPidAt (c :: rest) with
    | some p => some p
    | Option.none => matchVidPid rest

/-- `idVendor.toString(16).padStart(4, '0')`. -/
def natHex4 (n : Nat) : String :=
  match Nat.toDigits 16 n with
  | s => ⟨List.replicate (4 - s.length) '0' ++ s⟩

namespace USBService

def parseWMIDevice (d : WMIDevice) : Option USBDeviceInfo :=
  if d.DeviceID = "" then Option.none
  else
    some
      { deviceId := d.DeviceID
        vendorId :=
          match matchVidPid d.DeviceID.data with
          | some p => ⟨p.1⟩
          | Option.none => "unknown"
        productId :=
          match matchVidPid d.DeviceID.data with
          | some p => ⟨p.2⟩
          | Option.none => "unknown"
        manufacturer := jsOrUndef d.Manufacturer
        product := jsOrUndef d.Name
        status := if d.Status = "OK" then USBStatus.connected else USBStatus.error }

/-- One iteration of the scanWithWMI forEach. State: (registry, foundDevices,
emitted events). Note that the registry insertion happens BEFORE the
`!this.devices.has(...)` check guarding the device-connected emission, which
is therefore translated exactly as written — on the updated registry. -/
def wmiStep (st : USBRegistry × List String × List USBEvent) (d : WMIDevice) :
    USBRegistry × List String × List USBEvent :=
  if d.DeviceID = "" then st
  else
    match parseWMIDevice d with
    | Option.none => st
    | some info =>
      (mapSet st.1 info.deviceId info,
        (if strMem st.2.1 info.deviceId then st.2.1 else st.2.1 ++ [info.deviceId]),
        (if mapHas (mapSet st.1 info.deviceId info) info.deviceId then st.2.2
         else st.2.2 ++ [USBEvent.deviceConnected info]))

def libDeviceId (d : LibDevice) : String :=
  toString d.idVendor ++ ":" ++ toString d.idProduct

/-- One iteration of the scanWithUSBLibrary forEach. State: (registry,
foundDevices). No event is emitted on this path. -/
def libStep (st : USBRegistry × List String) (d : LibDevice) :
    USBRegistry × List String :=
  if strMem st.2 (libDeviceId d) then st
  else
    (mapSet st.1 (libDeviceId d)
      { deviceId := libDeviceId d
        vendorId := natHex4 d.idVendor
        productId := natHex4 d.idProduct
        manufacturer := d.manufacturer
        product := d.product
        serialNumber := d.serialNumber
        deviceClass := d.bDeviceClass.map toString
        deviceSubclass := d.bDeviceSubClass.map toString
        status := USBStatus.connected },
      st.2 ++ [libDeviceId d])

/-- One iteration of the disconnect loop over the pre-scan registry
snapshot: any id absent from foundDevices is marked disconnected and a
device-disconnected event is emitted (regardless of its previous status). -/
def discStep (found : List String) (st : USBRegistry × List USBEvent)
    (entry : String × USBDeviceInfo) : USBRegistry × List USBEvent :=
  if strMem found entry.1 then st
  else
    (mapSet st.1 entry.1 { entry.2 with status := USBStatus.disconnected },
      st.2 ++
        [USBEvent.deviceDisconnected { entry.2 with status := USBStatus.disconnected }])

def wmiPhase (devices : USBRegistry) (wmi : List WMIDevice) :
    USBRegistry × List String × List USBEvent :=
  wmi.foldl wmiStep (devices, [], [])

def libPhase (st : USBRegistry × List String) (lib : List LibDevice) :
    USBRegistry × List String :=
  lib.foldl libStep st

/-- The final foundDevices set of one scanUSBDevices pass. -/
def scanFound (devices : USBRegistry) (wmi : List WMIDevice) (lib : List LibDevice) :
    List String :=
  (libPhase ((wmiPhase devices wmi).1, (wmiPhase devices wmi).2.1) lib).2

/-- scanUSBDevices up to (but excluding) the final devices-updated event. -/
def scanCore (devices : USBRegistry) (wmi : List WMIDevice) (lib : List LibDevice) :
    USBRegistry × List USBEvent :=
  devices.foldl (discStep (scanFound devices wmi lib))
    ((libPhase ((wmiPhase devices wmi).1, (wmiPhase devices wmi).2.1) lib).1,
      (wmiPhase devices wmi).2.2)

/-- One scanUSBDevices pass: WMI enumeration, usb-library enumeration, the
disconnect diff over the previous registry, then the devices-updated event.
Returns the new registry and the events emitted in order. -/
def scanUSBDevices (devices : USBRegistry) (wmi : List WMIDevice)
    (lib : List LibDevice) : USBRegistry × List USBEvent :=
  ((scanCore devices wmi lib).1,
    (scanCore devices wmi lib).2 ++
      [USBEvent.devicesUpdated ((scanCore devices wmi lib).1.map Prod.snd)])

def isDeviceAvailable (isInit : Bool) (devices : USBRegistry) (deviceId : String) :
    Bool :=
  match mapFind devices deviceId with
  | some device => decide (device.status = USBStatus.connected)
  | Option.none => false

def getDeviceInfo (isInit : Bool) (devices : USBRegistry) (deviceId : String) :
    Option USBDeviceInfo :=
  mapFind devices deviceId

def testDevice (isInit : Bool) (devices : USBRegistry) (deviceId : String) : Bool :=
  match getDeviceInfo isInit devices deviceId with
  | some device => decide (device.status = USBStatus.connected)
  | Option.none => false

/-- cleanup clears the whole registry. -/
def cleanup (devices : USBRegistry) : USBRegistry := []

def isConnectEvent : USBEvent → Bool
  | USBEvent.deviceConnected _ => true
  | _ => false

def isDisconnectEvent : USBEvent → Bool
  | USBEvent.deviceDisconnected _ => true
  | _ => false

end USBService

/-- A WMI enumeration row with status OK and the given id. -/
def okDev (id : String) : WMIDevice :=
  { DeviceID := id, Status := "OK" }

/-- A sample registry record used to instantiate the retention theorem. -/
def sampleUSBDev : USBDeviceInfo :=
  { deviceId := "A", vendorId := "unknown", productId := "unknown",
    status := USBStatus.connected }

/-! Scanner service (ScannerService, NAPS2 external-tool path). -/

/-- `needle` occurs somewhere in the list (JavaScript `String.includes`). -/
def subOccurs (needle : List Char) : List Char → Bool
  | [] => needle.isEmpty
  | c :: rest => needle.isPrefixOf (c :: rest) || subOccurs needle rest

def strIncludes (hay needle : String) : Bool := subOccurs needle.data hay.data

/-- JavaScript `String.prototype.trim`. -/
def jsTrim (s : String) : String :=
  ⟨((s.data.dropWhile Char.isWhitespace).reverse.dropWhile Char.isWhitespace).reverse⟩

inductive ScanResult
  | success (b64 : String)
  | failure (error : String)
deriving DecidableEq

namespace ScannerService

/-- The stderr/stdout classification of a failed NAPS2 run. -/
def classifyScanError (stderr stdout : String) : String :=
  if strIncludes stderr "No scanning device" then
    "Scanner não encontrado. Verifique se está conectado e ligado."
  else if strIncludes stderr "No pages" then
    "Nenhuma página foi escaneada. Coloque um documento no scanner."
  else if stderr ≠ "" then
    jsTrim stderr
  else if strIncludes stdout "Error" then
    jsTrim stdout
  else
    "Erro ao escanear documento"

/-- The close handler of performRealScan: `code` is the subprocess exit code
(none when the process was killed), `outFile` the content of the output file
when it exists. Success requires exit code zero and an existing output file,
whose bytes are returned base64-encoded; otherwise the failure reason is
classified from the captured stderr/stdout. -/
def naps2Close (code : Option Int) (outFile : Option (List Nat))
    (stderr stdout : String) : ScanResult :=
  if code = some 0 ∧ outFile ≠ Option.none then
    ScanResult.success (base64 (outFile.getD []))
  else
    ScanResult.failure (classifyScanError stderr stdout)

end ScannerService

namespace ScannerService

/-! createPdfFromImages page-size selection. Dimensions are in points
(72 points = 1 inch) and modelled as rationals. -/

def PAPER_SIZES : List (String × ℚ × ℚ) :=
  [("A4", 59528 / 100, 84189 / 100),
    ("A3", 84189 / 100, 119055 / 100),
    ("Letter", 612, 792),
    ("Legal", 612, 1008),
    ("A5", 41953 / 100, 59528 / 100)]

/-- `metadata.density || 200` (the scanner default). -/
def imgDpi (density : Option ℚ) : ℚ := jsOrRat density 200

/-- `(pixels / dpi) * 72`. -/
def pxToPoints (px dpi : ℚ) : ℚ := px / dpi * 72

/-- Combined absolute dimensional difference of computed size (w, h) against
candidate (W, H): the minimum of the unrotated sum `diff1` and the rotated
sum `diff2`. -/
def sizeDiff (w h W H : ℚ) : ℚ :=
  min (|w - W| + |h - H|) (|w - H| + |h - W|)

/-- The strictly-improving best-match loop: `i` is the index of the next
candidate, `(bi, bd)` the current bestMatch index and bestDiff. -/
def bestAux : Nat → Nat → ℚ → List ℚ → Nat × ℚ
  | _, bi, bd, [] => (bi, bd)
  | i, bi, bd, s :: rest =>
    if s < bd then bestAux (i + 1) i s rest else bestAux (i + 1) bi bd rest

def scoreList (w h : ℚ) : List ℚ :=
  PAPER_SIZES.map (fun c => sizeDiff w h c.2.1 c.2.2)

/-- The candidate loop starts with bestDiff = Infinity, so the first
candidate always becomes the initial best; subsequent candidates replace it
only on strict improvement (ties keep the earlier candidate). Returns the
chosen index into PAPER_SIZES and its difference. -/
def selectBest (w h : ℚ) : Nat × ℚ :=
  match scoreList w h with
  | [] => (0, 0)
  | s :: rest => bestAux 1 0 s rest

def sizeDiffAt (w h : ℚ) (j : Nat) : ℚ :=
  sizeDiff w h (PAPER_SIZES.getD j ("", 0, 0)).2.1 (PAPER_SIZES.getD j ("", 0, 0)).2.2

/-- The page dimensions actually used: the best-matching standard size,
rotated exactly when the computed width exceeds the computed height
(isLandscape). -/
def chosenPage (w h : ℚ) : String × ℚ × ℚ :=
  if h < w then
    ((PAPER_SIZES.getD (selectBest w h).1 ("", 0, 0)).1,
      (PAPER_SIZES.getD (selectBest w h).1 ("", 0, 0)).2.2,
      (PAPER_SIZES.getD (selectBest w h).1 ("", 0, 0)).2.1)
  else
    ((PAPER_SIZES.getD (selectBest w h).1 ("", 0, 0)).1,
      (PAPER_SIZES.getD (selectBest w h).1 ("", 0, 0)).2.1,
      (PAPER_SIZES.getD (selectBest w h).1 ("", 0, 0)).2.2)

end ScannerService

end Intranet

namespace Intranet

theorem mapFind_set_self {α : Type} (m : List (String × α)) (k : String) (v : α) :
    mapFind (mapSet m k v) k = some v := by
  induction m with
  | nil => simp [mapSet, mapFind]
  | cons e rest ih =>
    by_cases h : e.1 = k
    · simp [mapSet, h, mapFind]
    · simp [mapSet, h, mapFind, ih]

theorem mapFind_set_ne {α : Type} (m : List (String × α)) (k k' : String) (v : α)
    (h : k ≠ k') : mapFind (mapSet m k v) k' = mapFind m k' := by
  induction m with
  | nil =>
    simp only [mapSet, mapFind]
    rw [if_neg h]
  | cons e rest ih =>
    by_cases he : e.1 = k
    · rw [show mapSet (e :: rest) k v = (k, v) :: rest from by simp [mapSet, he]]
      simp only [mapFind]
      rw [if_neg h, if_neg (show ¬ e.1 = k' from fun hh => h (he.symm.trans hh))]
    · rw [show mapSet (e :: rest) k v = e :: mapSet rest k v from by simp [mapSet, he]]
      simp only [mapFind]
      by_cases he' : e.1 = k'
      · rw [if_pos he', if_pos he']
      · rw [if_neg he', if_neg he', ih]

theorem mapHas_set {α : Type} (m : List (String × α)) (k k' : String) (v : α)
    (h : mapHas m k' = true) : mapHas (mapSet m k v) k' = true := by
  induction m with
  | nil => simp [mapHas] at h
  | cons e rest ih =>
    by_cases he : e.1 = k
    · rw [show mapSet (e :: rest) k v = (k, v) :: rest from by simp [mapSet, he]]
      simp only [mapHas] at h ⊢
      by_cases hk : k = k'
      · rw [if_pos hk]
      · rw [if_neg hk]
        rw [if_neg (show ¬ e.1 = k' from fun hh => hk (he.symm.trans hh))] at h
        exact h
    · rw [show mapSet (e :: rest) k v = e :: mapSet rest k v from by simp [mapSet, he]]
      simp only [mapHas] at h ⊢
      by_cases he' : e.1 = k'
      · rw [if_pos he']
      · rw [if_neg he'] at h ⊢
        exact ih h

theorem mapSet_ne_nil {α : Type} (m : List (String × α)) (k : String) (v : α) :
    mapSet m k v ≠ [] := by
  cases m with
  | nil => simp [mapSet]
  | cons e rest =>
    by_cases h : e.1 = k <;> simp [mapSet, h]

/-- Every value of a map built by `mapSet` is either the inserted value or was
already a value. -/
theorem mem_values_mapSet {α : Type} (m : List (String × α)) (k : String) (v p : α)
    (h : p ∈ (mapSet m k v).map Prod.snd) : p = v ∨ p ∈ m.map Prod.snd := by
  induction m with
  | nil =>
    simp [mapSet] at h
    exact Or.inl h
  | cons e rest ih =>
    by_cases he : e.1 = k
    · rw [show mapSet (e :: rest) k v = (k, v) :: rest from by simp [mapSet, he]] at h
      simp only [List.map, List.mem_cons] at h
      rcases h with h | h
      · exact Or.inl h
      · exact Or.inr (by simp [h])
    · rw [show mapSet (e :: rest) k v = e :: mapSet rest k v from by simp [mapSet, he]] at h
      simp only [List.map, List.mem_cons] at h
      rcases h with h | h
      · exact Or.inr (by simp [h])
      · rcases ih h with h' | h'
        · exact Or.inl h'
        · exact Or.inr (by simp [h'])

end Intranet

namespace Intranet

/-- Claim C9: for every system state, including one where both enumeration
strategies discover no physical camera, getCameras returns a non-empty list;
when discovery finds no entries a fallback default-camera record is inserted
into the registry before the result is returned. -/
theorem getCameras_never_empty (webcams : List PnPImagingDevice)
    (usbCams : List USBHubCamera) :
    CameraService.getCameras true webcams usbCams ≠ [] := by
  unfold CameraService.getCameras CameraService.getAvailableDevices
    CameraService.detectCameras
  by_cases h :
      (CameraService.detectUSBCameras (CameraService.detectWebcams [] webcams)
        usbCams).length = 0
  · rw [if_pos h]
    have hnil :
        CameraService.detectUSBCameras (CameraService.detectWebcams [] webcams)
          usbCams = [] :=
      List.length_eq_zero.mp h
    rw [hnil]
    simp [mapSet]
  · rw [if_neg h]
    intro hc
    exact h (by rw [List.map_eq_nil_iff.mp hc]; rfl)

/-- Claim C5 counterexample: in base64 mode, when the capture backend fails
after creating the temporary file, capturePhoto exits with an error and the
temporary file is NOT removed (no cleanup runs on that exit path). -/
theorem capturePhoto_base64_leaves_file :
    CameraService.capturePhoto [("0", CameraService.defaultCamera)] "0" none false
        (CameraService.CaptureOutcome.failed true "device error") [] =
      (Except.error "Erro na captura: device error", true) := by
  rfl

/-- Claim C5 amended: in base64 mode the temporary file is removed on the
successful exit path only; on the capture-failure exit path no removal is
attempted, so a file the backend created before failing remains on disk. -/
theorem capturePhoto_cleanup_on_success_only (cams : CamRegistry)
    (cameraId : String) (format : Option String) (content : List Nat)
    (camera : CameraInfo) (path msg : String)
    (hfind : mapFind cams cameraId = some camera)
    (hav : camera.status = CamStatus.available) :
    CameraService.capturePhoto cams cameraId format false
        (CameraService.CaptureOutcome.ok path) content =
      (Except.ok (CameraService.imageToBase64 path content), false) ∧
    CameraService.capturePhoto cams cameraId format false
        (CameraService.CaptureOutcome.failed true msg) content =
      (Except.error ("Erro na captura: " ++ msg), true) := by
  unfold CameraService.capturePhoto
  rw [hfind]
  simp [hav]

/-- Concrete instantiation of capturePhoto_cleanup_on_success_only. -/
theorem capturePhoto_cleanup_witness :
    mapFind [("0", CameraService.defaultCamera)] "0" =
        some CameraService.defaultCamera ∧
    CameraService.defaultCamera.status = CamStatus.available ∧
    CameraService.capturePhoto [("0", CameraService.defaultCamera)] "0" none false
        (CameraService.CaptureOutcome.ok "C:\\tmp\\capture_1.jpg") [1, 2, 3] =
      (Except.ok (CameraService.imageToBase64 "C:\\tmp\\capture_1.jpg" [1, 2, 3]),
        false) :=
  ⟨by decide, by decide,
    (capturePhoto_cleanup_on_success_only [("0", CameraService.defaultCamera)] "0"
        none [1, 2, 3] CameraService.defaultCamera "C:\\tmp\\capture_1.jpg" "x"
        (by decide) (by decide)).1⟩

end Intranet

namespace Intranet

/-- Claim C7: a second openPort call on a path that already has a registered
open connection fails with the already-open error and leaves the state (in
particular the open-connections entry and the port registry record for that
path) completely unchanged. -/
theorem openPort_already_open (st : SerialState) (portPath : String)
    (options : SerialPortOptions) (connOutcome : Except String Unit)
    (h : mapHas st.openConnections portPath = true) :
    SerialService.openPort st portPath options connOutcome =
      (false, st,
        [SerialEvent.portError portPath ("Porta " ++ portPath ++ " já está aberta")]) ∧
    (SerialService.openPort st portPath options connOutcome).2.1.openConnections =
      st.openConnections ∧
    mapFind (SerialService.openPort st portPath options connOutcome).2.1.ports
      portPath = mapFind st.ports portPath := by
  unfold SerialService.openPort
  simp [h]

/-- Concrete instantiation of openPort_already_open. -/
theorem openPort_already_open_witness :
    mapHas
        (SerialState.mk [("COM3", { path := "COM3", status := PortStatus.busy })]
          [("COM3", SerialService.resolveSerialOptions "COM3" {})]).openConnections
        "COM3" = true ∧
    SerialService.openPort
        (SerialState.mk [("COM3", { path := "COM3", status := PortStatus.busy })]
          [("COM3", SerialService.resolveSerialOptions "COM3" {})])
        "COM3" {} (Except.ok ()) =
      (false,
        SerialState.mk [("COM3", { path := "COM3", status := PortStatus.busy })]
          [("COM3", SerialService.resolveSerialOptions "COM3" {})],
        [SerialEvent.portError "COM3" "Porta COM3 já está aberta"]) :=
  ⟨by decide,
    (openPort_already_open
        (SerialState.mk [("COM3", { path := "COM3", status := PortStatus.busy })]
          [("COM3", SerialService.resolveSerialOptions "COM3" {})])
        "COM3" {} (Except.ok ()) (by decide)).1⟩

/-- Every printer record in the refreshed registry was parsed from some raw
enumeration row. -/
theorem mem_refresh_fold (raw : List RawPrinter) :
    ∀ (acc : List (String × PrinterInfo)) (p : PrinterInfo),
      p ∈ ((raw.foldl (fun reg r => mapSet reg r.Name (PrinterService.parsePrinter r))
            acc).map Prod.snd) →
      p ∈ acc.map Prod.snd ∨ ∃ r ∈ raw, p = PrinterService.parsePrinter r := by
  induction raw with
  | nil =>
    intro acc p h
    exact Or.inl h
  | cons r rest ih =>
    intro acc p h
    rcases ih (mapSet acc r.Name (PrinterService.parsePrinter r)) p h with h' | h'
    · rcases mem_values_mapSet acc r.Name (PrinterService.parsePrinter r) p h' with h2 | h2
      · exact Or.inr ⟨r, by simp, h2⟩
      · exact Or.inl h2
    · obtain ⟨r', hr', he⟩ := h'
      exact Or.inr ⟨r', by simp [hr'], he⟩

/-- Claim C8: when options.printer is unset and no record of the refreshed
registry is marked default, print fails with the no-default-printer error
and invokes no type-specific printing backend. -/
theorem print_no_default_printer (raw : List RawPrinter) (content : String)
    (typ : PrintType) (backendOk : Bool) (backendErr : String)
    (hnodef : ∀ r ∈ raw, r.Default.getD false = false) :
    PrinterService.print raw content typ Option.none backendOk backendErr =
      (false, Option.none, ["Nenhuma impressora padrão encontrada"]) := by
  have hfind : (PrinterService.getPrinters raw).find? (fun p => p.isDefault) =
      Option.none := by
    rw [List.find?_eq_none]
    intro p hp
    rcases mem_refresh_fold raw [] p hp with h' | h'
    · simp at h'
    · obtain ⟨r, hr, rfl⟩ := h'
      simp [PrinterService.parsePrinter, hnodef r hr]
  unfold PrinterService.print
  simp [hfind]

/-- Concrete instantiation of print_no_default_printer. -/
theorem print_no_default_printer_witness :
    (∀ r ∈ [RawPrinter.mk "P1" Option.none (some false) Option.none Option.none],
        r.Default.getD false = false) ∧
    PrinterService.print
        [RawPrinter.mk "P1" Option.none (some false) Option.none Option.none]
        "hello" PrintType.text Option.none true "err" =
      (false, Option.none, ["Nenhuma impressora padrão encontrada"]) :=
  ⟨by decide,
    print_no_default_printer
      [RawPrinter.mk "P1" Option.none (some false) Option.none Option.none]
      "hello" PrintType.text true "err" (by decide)⟩

end Intranet

namespace Intranet

/-- Claim C2 (bug evidence): with registry built from snapshot [A,B], the
snapshot [B,C] emits exactly one disconnect (for A) but ZERO
device-connected events even though C is newly inserted into the registry:
scanWithWMI inserts the device before evaluating the not-has check that
guards the connect emission, so the emission is unreachable. -/
theorem usb_diff_connect_never_emitted :
    (USBService.scanUSBDevices (USBService.scanUSBDevices [] [okDev "A", okDev "B"] []).1
        [okDev "B", okDev "C"] []).2.countP
      (fun e => USBService.isConnectEvent e) = 0 ∧
    (USBService.scanUSBDevices (USBService.scanUSBDevices [] [okDev "A", okDev "B"] []).1
        [okDev "B", okDev "C"] []).2.countP
      (fun e => USBService.isDisconnectEvent e) = 1 ∧
    mapHas (USBService.scanUSBDevices (USBService.scanUSBDevices [] [okDev "A", okDev "B"] []).1
        [okDev "B", okDev "C"] []).1 "C" = true := by
  decide

/-- Claim C3 (bug evidence): after a scan whose enumeration is empty has
marked device A disconnected, a second scan with the identical (empty)
enumeration result emits a device-disconnected event for A again: the
disconnect branch fires for every registry id absent from foundDevices,
with no check that the id was already disconnected, so the diff is not
idempotent. -/
theorem usb_diff_not_idempotent :
    (USBService.scanUSBDevices
        (USBService.scanUSBDevices (USBService.scanUSBDevices [] [okDev "A"] []).1 [] []).1
        [] []).2.countP (fun e => USBService.isDisconnectEvent e) = 1 := by
  decide

/-- Claim C6 counterexample: invoking operations on uninitialized services
does not fail with a NotInitialized condition — the operations simply
execute. An uninitialized CameraService getAvailableDevices runs detection
and returns the fallback camera, and an uninitialized USBService
isDeviceAvailable consults the registry normally. -/
theorem device_ops_execute_uninitialized :
    CameraService.getAvailableDevices false [] [] = [CameraService.defaultCamera] ∧
    USBService.isDeviceAvailable false
        [("A", { deviceId := "A", vendorId := "0000", productId := "0000",
                 status := USBStatus.connected })] "A" = true := by
  decide

/-- Claim C6 amended: operations other than initialize and cleanup perform
no initialization-state check of any kind: their behaviour is identical
whatever the state of the initialization flag (there is no NotInitialized
failure path in the code). -/
theorem device_ops_ignore_init_state (b : Bool) (webcams : List PnPImagingDevice)
    (usbCams : List USBHubCamera) (cams : CamRegistry) (devices : USBRegistry)
    (raw : List RawPrinter) (x : String) :
    CameraService.getAvailableDevices b webcams usbCams =
      CameraService.getAvailableDevices true webcams usbCams ∧
    CameraService.isDeviceAvailable b cams x =
      CameraService.isDeviceAvailable true cams x ∧
    CameraService.getDeviceInfo b cams x = CameraService.getDeviceInfo true cams x ∧
    USBService.isDeviceAvailable b devices x =
      USBService.isDeviceAvailable true devices x ∧
    USBService.getDeviceInfo b devices x = USBService.getDeviceInfo true devices x ∧
    USBService.testDevice b devices x = USBService.testDevice true devices x ∧
    PrinterService.isDeviceAvailable b raw x =
      PrinterService.isDeviceAvailable true raw x :=
  ⟨rfl, rfl, rfl, rfl, rfl, rfl, rfl⟩

end Intranet

namespace Intranet

theorem foldl_preserve {σ α : Type} (P : σ → Prop) (f : σ → α → σ)
    (hf : ∀ s a, P s → P (f s a)) :
    ∀ (l : List α) (s : σ), P s → P (l.foldl f s) := by
  intro l
  induction l with
  | nil =>
    intro s h
    exact h
  | cons a rest ih =>
    intro s h
    exact ih (f s a) (hf s a h)

theorem mapHas_wmiStep (st : USBRegistry × List String × List USBEvent)
    (d : WMIDevice) (k : String) (h : mapHas st.1 k = true) :
    mapHas (USBService.wmiStep st d).1 k = true := by
  unfold USBService.wmiStep
  by_cases hid : d.DeviceID = ""
  · simpa [hid]
  · cases hp : USBService.parseWMIDevice d with
    | none => simpa [hid, hp]
    | some info => simpa [hid, hp] using mapHas_set st.1 info.deviceId k info h

theorem mapHas_libStep (st : USBRegistry × List String) (d : LibDevice) (k : String)
    (h : mapHas st.1 k = true) : mapHas (USBService.libStep st d).1 k = true := by
  unfold USBService.libStep
  by_cases hm : strMem st.2 (USBService.libDeviceId d) = true
  · simpa [hm]
  · simpa [hm] using mapHas_set st.1 (USBService.libDeviceId d) k _ h

theorem mapHas_discStep (found : List String) (st : USBRegistry × List USBEvent)
    (entry : String × USBDeviceInfo) (k : String) (h : mapHas st.1 k = true) :
    mapHas (USBService.discStep found st entry).1 k = true := by
  unfold USBService.discStep
  by_cases hm : strMem found entry.1 = true
  · simpa [hm]
  · simpa [hm] using mapHas_set st.1 entry.1 k _ h

theorem discFold_find_ne (found : List String) (k : String) :
    ∀ (l : List (String × USBDeviceInfo)) (st : USBRegistry × List USBEvent),
      (∀ e ∈ l, e.1 ≠ k) →
      mapFind (l.foldl (USBService.discStep found) st).1 k = mapFind st.1 k := by
  intro l
  induction l with
  | nil =>
    intro st h
    rfl
  | cons e rest ih =>
    intro st h
    rw [List.foldl_cons]
    rw [ih (USBService.discStep found st e)
      (fun e' he' => h e' (List.mem_cons_of_mem e he'))]
    unfold USBService.discStep
    by_cases hm : strMem found e.1 = true
    · simp [hm]
    · simp only [hm, Bool.false_eq_true, if_false]
      exact mapFind_set_ne st.1 e.1 k _ (h e (List.mem_cons_self e rest))

theorem mapFind_split {α : Type} (m : List (String × α)) (k : String) (v : α)
    (h : mapFind m k = some v) :
    ∃ l1 l2, m = l1 ++ (k, v) :: l2 ∧ ∀ e ∈ l1, e.1 ≠ k := by
  induction m with
  | nil => simp [mapFind] at h
  | cons e rest ih =>
    by_cases he : e.1 = k
    · obtain ⟨e1, e2⟩ := e
      simp only [mapFind] at h
      rw [if_pos he] at h
      have hv : e2 = v := by injection h
      have hk : e1 = k := he
      refine ⟨[], rest, ?_, by simp⟩
      simp [hk, hv]
    · simp only [mapFind] at h
      rw [if_neg he] at h
      obtain ⟨l1, l2, heq, hne⟩ := ih h
      refine ⟨e :: l1, l2, by simp [heq], ?_⟩
      intro e' he'
      rcases List.mem_cons.mp he' with h' | h'
      · exact h' ▸ he
      · exact hne e' h'

/-- Claim C10: once an id is in the USB registry no discovery pass removes
it: every previously present key is still present after scanUSBDevices, an
id absent from the enumeration is retained with status disconnected (and is
still returned by getDeviceInfo), and only cleanup empties the registry. -/
theorem usb_registry_retention (devices : USBRegistry) (wmi : List WMIDevice)
    (lib : List LibDevice) (deviceId : String) (dev : USBDeviceInfo)
    (hnodup : (devices.map Prod.fst).Nodup)
    (hfind : mapFind devices deviceId = some dev)
    (habsent : strMem (USBService.scanFound devices wmi lib) deviceId = false) :
    (∀ k, mapHas devices k = true →
        mapHas (USBService.scanUSBDevices devices wmi lib).1 k = true) ∧
    USBService.getDeviceInfo true (USBService.scanUSBDevices devices wmi lib).1
        deviceId = some { dev with status := USBStatus.disconnected } ∧
    USBService.cleanup (USBService.scanUSBDevices devices wmi lib).1 = [] := by
  refine ⟨?_, ?_, rfl⟩
  · intro k hk
    show mapHas (USBService.scanCore devices wmi lib).1 k = true
    unfold USBService.scanCore
    apply foldl_preserve (fun st => mapHas st.1 k = true) _
      (fun s a hs => mapHas_discStep _ s a k hs)
    unfold USBService.libPhase
    apply foldl_preserve (fun st => mapHas st.1 k = true) _
      (fun s a hs => mapHas_libStep s a k hs)
    unfold USBService.wmiPhase
    apply foldl_preserve (fun st => mapHas st.1 k = true) _
      (fun s a hs => mapHas_wmiStep s a k hs)
    exact hk
  · show mapFind (USBService.scanCore devices wmi lib).1 deviceId = _
    obtain ⟨l1, l2, heq, hne1⟩ := mapFind_split devices deviceId dev hfind
    have hne2 : ∀ e ∈ l2, e.1 ≠ deviceId := by
      intro e he hk
      have hnd : ((l1 ++ (deviceId, dev) :: l2).map Prod.fst).Nodup := heq ▸ hnodup
      rw [List.map_append, List.map_cons] at hnd
      have h2 := (List.nodup_cons.mp hnd.of_append_right).1
      exact h2 (hk ▸ List.mem_map.mpr ⟨e, he, rfl⟩)
    unfold USBService.scanCore
    set F := USBService.scanFound devices wmi lib with hF
    set init := ((USBService.libPhase ((USBService.wmiPhase devices wmi).1,
          (USBService.wmiPhase devices wmi).2.1) lib).1,
        (USBService.wmiPhase devices wmi).2.2) with hI
    rw [heq, List.foldl_append, List.foldl_cons]
    rw [discFold_find_ne F deviceId l2 _ hne2]
    unfold USBService.discStep
    dsimp only
    rw [if_neg (by simp [habsent])]
    exact mapFind_set_self _ _ _

/-- Concrete instantiation of usb_registry_retention. -/
theorem usb_registry_retention_witness :
    ([("A", sampleUSBDev)].map Prod.fst).Nodup ∧
    mapFind [("A", sampleUSBDev)] "A" = some sampleUSBDev ∧
    strMem (USBService.scanFound [("A", sampleUSBDev)] [] []) "A" = false ∧
    USBService.getDeviceInfo true
        (USBService.scanUSBDevices [("A", sampleUSBDev)] [] []).1 "A" =
      some { sampleUSBDev with status := USBStatus.disconnected } :=
  ⟨by decide, by decide, by decide,
    (usb_registry_retention [("A", sampleUSBDev)] [] [] "A" sampleUSBDev
      (by decide) (by decide) (by decide)).2.1⟩

end Intranet

namespace Intranet

/-- Claim C4: on subprocess exit the scan request succeeds (returning the
base64-encoded document) iff the exit code is zero and the output file
exists; otherwise the failure reason is classified from the captured
stderr: the no-scanning-device substring yields the not-connected message,
else the no-pages substring yields the no-pages message, else any non-empty
stderr is returned (trimmed) as the raw error message. -/
theorem performRealScan_close_spec (code : Option Int) (outFile : Option (List Nat))
    (stderr stdout : String) :
    ((∃ b, ScannerService.naps2Close code outFile stderr stdout = ScanResult.success b) ↔
      (code = some 0 ∧ outFile ≠ Option.none)) ∧
    (∀ bytes, code = some 0 → outFile = some bytes →
      ScannerService.naps2Close code outFile stderr stdout =
        ScanResult.success (base64 bytes)) ∧
    (¬(code = some 0 ∧ outFile ≠ Option.none) →
      strIncludes stderr "No scanning device" = true →
      ScannerService.naps2Close code outFile stderr stdout =
        ScanResult.failure
          "Scanner não encontrado. Verifique se está conectado e ligado.") ∧
    (¬(code = some 0 ∧ outFile ≠ Option.none) →
      strIncludes stderr "No scanning device" = false →
      strIncludes stderr "No pages" = true →
      ScannerService.naps2Close code outFile stderr stdout =
        ScanResult.failure
          "Nenhuma página foi escaneada. Coloque um documento no scanner.") ∧
    (¬(code = some 0 ∧ outFile ≠ Option.none) →
      strIncludes stderr "No scanning device" = false →
      strIncludes stderr "No pages" = false →
      stderr ≠ "" →
      ScannerService.naps2Close code outFile stderr stdout =
        ScanResult.failure (jsTrim stderr)) := by
  by_cases hc : code = some 0 ∧ outFile ≠ Option.none
  · refine ⟨⟨fun _ => hc, fun _ => ?_⟩, ?_, fun hnc => absurd hc hnc,
      fun hnc => absurd hc hnc, fun hnc => absurd hc hnc⟩
    · exact ⟨base64 (outFile.getD []), by simp [ScannerService.naps2Close, hc]⟩
    · intro bytes h0 hb
      simp [ScannerService.naps2Close, hc, hb]
  · have hne : ScannerService.naps2Close code outFile stderr stdout =
        ScanResult.failure (ScannerService.classifyScanError stderr stdout) := by
      simp [ScannerService.naps2Close, hc]
    refine ⟨⟨?_, fun h => absurd h hc⟩, ?_, ?_, ?_, ?_⟩
    · rintro ⟨b, hb⟩
      rw [hne] at hb
      exact absurd hb (by simp)
    · intro bytes h0 hb
      exact absurd ⟨h0, by simp [hb]⟩ hc
    · intro _ h1
      rw [hne]
      simp [ScannerService.classifyScanError, h1]
    · intro _ h1 h2
      rw [hne]
      simp [ScannerService.classifyScanError, h1, h2]
    · intro _ h1 h2 h3
      rw [hne]
      simp [ScannerService.classifyScanError, h1, h2, h3]

/-- Concrete instantiation of performRealScan_close_spec. -/
theorem performRealScan_close_witness :
    ¬((some 1 : Option Int) = some 0 ∧ (Option.none : Option (List Nat)) ≠ Option.none) ∧
    strIncludes "No scanning device found." "No scanning device" = true ∧
    ScannerService.naps2Close (some 1) Option.none "No scanning device found." "" =
      ScanResult.failure
        "Scanner não encontrado. Verifique se está conectado e ligado." :=
  ⟨by decide, by decide,
    (performRealScan_close_spec (some 1) Option.none "No scanning device found."
        "").2.2.1 (by decide) (by decide)⟩

end Intranet

namespace Intranet

/-- Invariant of the strictly-improving best-match loop: the result is no
larger than the incoming best and than every remaining score, it is either
the incoming best or a strictly better score from the list, and every score
positioned before the returned index is strictly larger than the result. -/
theorem bestAux_spec :
    ∀ (l : List ℚ) (i bi : Nat) (bd : ℚ), bi < i →
      (ScannerService.bestAux i bi bd l).2 ≤ bd ∧
      (∀ j, j < l.length → (ScannerService.bestAux i bi bd l).2 ≤ l.getD j 0) ∧
      ((ScannerService.bestAux i bi bd l).1 = bi ∧
          (ScannerService.bestAux i bi bd l).2 = bd ∨
        ∃ j, j < l.length ∧ (ScannerService.bestAux i bi bd l).1 = i + j ∧
          (ScannerService.bestAux i bi bd l).2 = l.getD j 0 ∧
          (ScannerService.bestAux i bi bd l).2 < bd) ∧
      (∀ j, j < l.length → i + j < (ScannerService.bestAux i bi bd l).1 →
        (ScannerService.bestAux i bi bd l).2 < l.getD j 0) := by
  intro l
  induction l with
  | nil =>
    intro i bi bd hbi
    refine ⟨le_refl _, ?_, Or.inl ⟨rfl, rfl⟩, ?_⟩ <;> intro j hj <;>
      exact absurd hj (by simp)
  | cons s rest ih =>
    intro i bi bd hbi
    by_cases hs : s < bd
    · have heq : ScannerService.bestAux i bi bd (s :: rest) =
          ScannerService.bestAux (i + 1) i s rest := by
        simp [ScannerService.bestAux, hs]
      obtain ⟨h1, h2, h3, h4⟩ := ih (i + 1) i s (Nat.lt_succ_self i)
      rw [heq]
      refine ⟨le_trans h1 (le_of_lt hs), ?_, ?_, ?_⟩
      · intro j hj
        cases j with
        | zero => simpa using h1
        | succ j' => simpa using h2 j' (by simpa using hj)
      · rcases h3 with ⟨ha, hb⟩ | ⟨j', hj', ha, hb, hlt⟩
        · refine Or.inr ⟨0, by simp, by omega, by simpa using hb, by rw [hb]; exact hs⟩
        · refine Or.inr ⟨j' + 1, by simpa using hj', by omega, by simpa using hb,
            lt_trans hlt hs⟩
      · intro j hj hlt
        cases j with
        | zero =>
          rcases h3 with ⟨ha, hb⟩ | ⟨j', hj', ha, hb, hlt'⟩
          · rw [ha] at hlt
            exact absurd hlt (by omega)
          · simpa using hlt'
        | succ j' =>
          have hj'' : j' < rest.length := by simpa using hj
          have hlt'' : (i + 1) + j' < (ScannerService.bestAux (i + 1) i s rest).1 := by
            omega
          simpa using h4 j' hj'' hlt''
    · have heq : ScannerService.bestAux i bi bd (s :: rest) =
          ScannerService.bestAux (i + 1) bi bd rest := by
        simp [ScannerService.bestAux, hs]
      obtain ⟨h1, h2, h3, h4⟩ := ih (i + 1) bi bd (by omega)
      rw [heq]
      have hbds : bd ≤ s := not_lt.mp hs
      refine ⟨h1, ?_, ?_, ?_⟩
      · intro j hj
        cases j with
        | zero => simpa using le_trans h1 hbds
        | succ j' => simpa using h2 j' (by simpa using hj)
      · rcases h3 with ⟨ha, hb⟩ | ⟨j', hj', ha, hb, hlt⟩
        · exact Or.inl ⟨ha, hb⟩
        · refine Or.inr ⟨j' + 1, by simpa using hj', by omega, by simpa using hb, hlt⟩
      · intro j hj hlt
        cases j with
        | zero =>
          rcases h3 with ⟨ha, hb⟩ | ⟨j', hj', ha, hb, hlt'⟩
          · rw [ha] at hlt
            exact absurd hlt (by omega)
          · have : (ScannerService.bestAux (i + 1) bi bd rest).2 < bd := hlt'
            simpa using lt_of_lt_of_le this hbds
        | succ j' =>
          have hj'' : j' < rest.length := by simpa using hj
          have hlt'' : (i + 1) + j' < (ScannerService.bestAux (i + 1) bi bd rest).1 := by
            omega
          simpa using h4 j' hj'' hlt''

end Intranet

namespace Intranet

/-- Rearrangement inequality for two pairs: when w is the larger computed
dimension and H the larger candidate dimension, pairing large with large
(the rotated sum) is no worse than the crossed pairing. -/
theorem sortedDiff_le (w h W H : ℚ) (hwh : h ≤ w) (hWH : W ≤ H) :
    |w - H| + |h - W| ≤ |w - W| + |h - H| := by
  rcases abs_cases (w - H) with ⟨e1, s1⟩ | ⟨e1, s1⟩ <;>
    rcases abs_cases (h - W) with ⟨e2, s2⟩ | ⟨e2, s2⟩ <;>
      rcases abs_cases (w - W) with ⟨e3, s3⟩ | ⟨e3, s3⟩ <;>
        rcases abs_cases (h - H) with ⟨e4, s4⟩ | ⟨e4, s4⟩ <;>
          rw [e1, e2, e3, e4] <;> linarith

/-- Selection properties of the best-match loop over the five candidates:
the chosen index is in range, its stored difference is the difference of the
chosen candidate, it is minimal among all candidates, and every earlier
candidate has a strictly larger difference. -/
theorem selectBest_spec (w h : ℚ) :
    (ScannerService.selectBest w h).1 < ScannerService.PAPER_SIZES.length ∧
    (ScannerService.selectBest w h).2 =
      ScannerService.sizeDiffAt w h (ScannerService.selectBest w h).1 ∧
    (∀ j, j < ScannerService.PAPER_SIZES.length →
      (ScannerService.selectBest w h).2 ≤ ScannerService.sizeDiffAt w h j) ∧
    (∀ j, j < (ScannerService.selectBest w h).1 →
      (ScannerService.selectBest w h).2 < ScannerService.sizeDiffAt w h j) := by
  have hsel : ScannerService.selectBest w h =
      ScannerService.bestAux 1 0 (ScannerService.sizeDiffAt w h 0)
        [ScannerService.sizeDiffAt w h 1, ScannerService.sizeDiffAt w h 2,
          ScannerService.sizeDiffAt w h 3, ScannerService.sizeDiffAt w h 4] := rfl
  obtain ⟨h1, h2, h3, h4⟩ := bestAux_spec
    [ScannerService.sizeDiffAt w h 1, ScannerService.sizeDiffAt w h 2,
      ScannerService.sizeDiffAt w h 3, ScannerService.sizeDiffAt w h 4] 1 0
    (ScannerService.sizeDiffAt w h 0) (by omega)
  have h5 : ScannerService.PAPER_SIZES.length = 5 := rfl
  rw [hsel, h5]
  refine ⟨?_, ?_, ?_, ?_⟩
  · rcases h3 with ⟨ha, _⟩ | ⟨j', hj', ha, _, _⟩
    · rw [ha]
      omega
    · have hj4 : j' < 4 := by simpa using hj'
      rw [ha]
      omega
  · rcases h3 with ⟨ha, hb⟩ | ⟨j', hj', ha, hb, _⟩
    · rw [ha, hb]
    · have hj4 : j' < 4 := by simpa using hj'
      rw [ha]
      interval_cases j' <;> simpa using hb
  · intro j hj
    interval_cases j
    · exact h1
    · simpa using h2 0 (by norm_num)
    · simpa using h2 1 (by norm_num)
    · simpa using h2 2 (by norm_num)
    · simpa using h2 3 (by norm_num)
  · intro j hj
    rcases h3 with ⟨ha, hb⟩ | ⟨j', hj', ha, hb, hlt⟩
    · rw [ha] at hj
      exact absurd hj (by omega)
    · have hj4 : j' < 4 := by simpa using hj'
      rw [ha] at hj
      cases j with
      | zero => exact hlt
      | succ k =>
        have hk : k < 4 := by omega
        have hik : 1 + k < (ScannerService.bestAux 1 0 (ScannerService.sizeDiffAt w h 0)
            [ScannerService.sizeDiffAt w h 1, ScannerService.sizeDiffAt w h 2,
              ScannerService.sizeDiffAt w h 3, ScannerService.sizeDiffAt w h 4]).1 := by
          rw [ha]
          omega
        have hres := h4 k hk hik
        interval_cases k <;> simpa using hres

/-- Every candidate in PAPER_SIZES is declared portrait (width ≤ height). -/
theorem paperSizes_portrait (j : Nat) (hj : j < ScannerService.PAPER_SIZES.length) :
    (ScannerService.PAPER_SIZES.getD j ("", 0, 0)).2.1 ≤
      (ScannerService.PAPER_SIZES.getD j ("", 0, 0)).2.2 := by
  have h5 : ScannerService.PAPER_SIZES.length = 5 := rfl
  rw [h5] at hj
  interval_cases j <;> norm_num [ScannerService.PAPER_SIZES]

/-- The emitted page keeps the chosen candidate name in both branches. -/
theorem chosenPage_name (w h : ℚ) :
    (ScannerService.chosenPage w h).1 =
      (ScannerService.PAPER_SIZES.getD (ScannerService.selectBest w h).1 ("", 0, 0)).1 := by
  unfold ScannerService.chosenPage
  by_cases hl : h < w
  · rw [if_pos hl]
  · rw [if_neg hl]

/-- The orientation picked by the isLandscape test attains the two-sided
minimum sizeDiff of the chosen candidate. -/
theorem chosenPage_attains (w h : ℚ)
    (hWH : (ScannerService.PAPER_SIZES.getD (ScannerService.selectBest w h).1
        ("", 0, 0)).2.1 ≤
      (ScannerService.PAPER_SIZES.getD (ScannerService.selectBest w h).1
        ("", 0, 0)).2.2) :
    |w - (ScannerService.chosenPage w h).2.1| + |h - (ScannerService.chosenPage w h).2.2| =
      ScannerService.sizeDiffAt w h (ScannerService.selectBest w h).1 := by
  unfold ScannerService.chosenPage ScannerService.sizeDiffAt ScannerService.sizeDiff
  by_cases hl : h < w
  · rw [if_pos hl]
    dsimp only
    exact (min_eq_right (sortedDiff_le w h
      (ScannerService.PAPER_SIZES.getD (ScannerService.selectBest w h).1 ("", 0, 0)).2.1
      (ScannerService.PAPER_SIZES.getD (ScannerService.selectBest w h).1 ("", 0, 0)).2.2
      (le_of_lt hl) hWH)).symm
  · rw [if_neg hl]
    dsimp only
    have hwh : w ≤ h := not_lt.mp hl
    have hle := sortedDiff_le h w
      (ScannerService.PAPER_SIZES.getD (ScannerService.selectBest w h).1 ("", 0, 0)).2.1
      (ScannerService.PAPER_SIZES.getD (ScannerService.selectBest w h).1 ("", 0, 0)).2.2
      hwh hWH
    exact (min_eq_left (by linarith)).symm

end Intranet

namespace Intranet

/-- Claim C1: for an image with pixel dimensions (pxW, pxH) and DPI
`density || 200`, pixels are converted to points via px / dpi * 72 and the
page-assembly algorithm picks, from the fixed candidate list
A4, A3, Letter, Legal, A5, the index whose combined absolute difference
(minimized over unrotated and rotated orientation) is minimal, with ties
going to the earlier-declared candidate; the emitted page uses that
candidate in the orientation attaining the minimum. -/
theorem createPdf_page_selection (pxW pxH : ℚ) (density : Option ℚ) :
    (ScannerService.selectBest (ScannerService.pxToPoints pxW (ScannerService.imgDpi density))
        (ScannerService.pxToPoints pxH (ScannerService.imgDpi density))).1 <
      ScannerService.PAPER_SIZES.length ∧
    (ScannerService.selectBest (ScannerService.pxToPoints pxW (ScannerService.imgDpi density))
        (ScannerService.pxToPoints pxH (ScannerService.imgDpi density))).2 =
      ScannerService.sizeDiffAt
        (ScannerService.pxToPoints pxW (ScannerService.imgDpi density))
        (ScannerService.pxToPoints pxH (ScannerService.imgDpi density))
        (ScannerService.selectBest (ScannerService.pxToPoints pxW (ScannerService.imgDpi density))
          (ScannerService.pxToPoints pxH (ScannerService.imgDpi density))).1 ∧
    (∀ j, j < ScannerService.PAPER_SIZES.length →
      (ScannerService.selectBest (ScannerService.pxToPoints pxW (ScannerService.imgDpi density))
          (ScannerService.pxToPoints pxH (ScannerService.imgDpi density))).2 ≤
        ScannerService.sizeDiffAt
          (ScannerService.pxToPoints pxW (ScannerService.imgDpi density))
          (ScannerService.pxToPoints pxH (ScannerService.imgDpi density)) j) ∧
    (∀ j, j < (ScannerService.selectBest
          (ScannerService.pxToPoints pxW (ScannerService.imgDpi density))
          (ScannerService.pxToPoints pxH (ScannerService.imgDpi density))).1 →
      (ScannerService.selectBest (ScannerService.pxToPoints pxW (ScannerService.imgDpi density))
          (ScannerService.pxToPoints pxH (ScannerService.imgDpi density))).2 <
        ScannerService.sizeDiffAt
          (ScannerService.pxToPoints pxW (ScannerService.imgDpi density))
          (ScannerService.pxToPoints pxH (ScannerService.imgDpi density)) j) ∧
    (ScannerService.chosenPage (ScannerService.pxToPoints pxW (ScannerService.imgDpi density))
        (ScannerService.pxToPoints pxH (ScannerService.imgDpi density))).1 =
      (ScannerService.PAPER_SIZES.getD
        (ScannerService.selectBest (ScannerService.pxToPoints pxW (ScannerService.imgDpi density))
          (ScannerService.pxToPoints pxH (ScannerService.imgDpi density))).1 ("", 0, 0)).1 ∧
    |ScannerService.pxToPoints pxW (ScannerService.imgDpi density) -
        (ScannerService.chosenPage
          (ScannerService.pxToPoints pxW (ScannerService.imgDpi density))
          (ScannerService.pxToPoints pxH (ScannerService.imgDpi density))).2.1| +
      |ScannerService.pxToPoints pxH (ScannerService.imgDpi density) -
        (ScannerService.chosenPage
          (ScannerService.pxToPoints pxW (ScannerService.imgDpi density))
          (ScannerService.pxToPoints pxH (ScannerService.imgDpi density))).2.2| =
      (ScannerService.selectBest (ScannerService.pxToPoints pxW (ScannerService.imgDpi density))
        (ScannerService.pxToPoints pxH (ScannerService.imgDpi density))).2 := by
  obtain ⟨h1, h2, h3, h4⟩ :=
    selectBest_spec (ScannerService.pxToPoints pxW (ScannerService.imgDpi density))
      (ScannerService.pxToPoints pxH (ScannerService.imgDpi density))
  refine ⟨h1, h2, h3, h4, chosenPage_name _ _, ?_⟩
  rw [h2]
  exact chosenPage_attains _ _ (paperSizes_portrait _ h1)

/-- Concrete instantiation of createPdf_page_selection: a 1700x2200 px image
with no density metadata (so 200 DPI) computes to 612x792 points. -/
theorem createPdf_page_selection_witness :
    (0 : Nat) < ScannerService.PAPER_SIZES.length ∧
    (ScannerService.selectBest (ScannerService.pxToPoints 1700 (ScannerService.imgDpi Option.none))
        (ScannerService.pxToPoints 2200 (ScannerService.imgDpi Option.none))).2 ≤
      ScannerService.sizeDiffAt
        (ScannerService.pxToPoints 1700 (ScannerService.imgDpi Option.none))
        (ScannerService.pxToPoints 2200 (ScannerService.imgDpi Option.none)) 0 :=
  ⟨by decide, (createPdf_page_selection 1700 2200 Option.none).2.2.1 0 (by decide)⟩

end Intranet
